import Mathlib

/-!
Shallow embedding of the health-coach-ai mobile client
(screens: registration, daily log, reports, workout plans, profile).

Every definition mirrors one handler or expression of the TypeScript
source.  Network calls are modelled by recording the request body the
handler would post (`Option` request, `none` = no call issued); the
server's answer is an explicit `Except` parameter (`.error d` carries the
optional `detail` field of the error response, `.error none` also covers
the case of no response at all).  React component state is passed
explicitly and the handler returns the state after the interaction.
-/

namespace HealthCoach

/-! ## JavaScript numeric parsing

`parseInt` / `parseFloat` as used by the registration screen: skip
leading whitespace, optional sign, then a leading run of digits (for
`parseFloat` also a fractional part); trailing garbage is ignored and
`NaN` (modelled as `none`) results when no digit is found.  Exponent
suffixes and the `Infinity` literal are out of scope for the inputs the
claims range over. -/

/-- Value of a run of decimal digits. -/
def decDigitsVal (ds : List Char) : Nat :=
  ds.foldl (fun acc c => 10 * acc + (c.toNat - 48)) 0

/-- JS `parseInt(s)` (radix 10); `none` models `NaN`. -/
def jsParseInt (s : String) : Option Int :=
  let cs := s.toList.dropWhile (·.isWhitespace)
  let p : Int × List Char :=
    match cs with
    | '-' :: r => (-1, r)
    | '+' :: r => (1, r)
    | r => (1, r)
  let ds := p.2.takeWhile (·.isDigit)
  if ds.isEmpty then none else some (p.1 * decDigitsVal ds)

/-- JS `parseFloat(s)`; `none` models `NaN`. -/
def jsParseFloat (s : String) : Option ℚ :=
  let cs := s.toList.dropWhile (·.isWhitespace)
  let p : ℚ × List Char :=
    match cs with
    | '-' :: r => (-1, r)
    | '+' :: r => (1, r)
    | r => (1, r)
  let intDs := p.2.takeWhile (·.isDigit)
  let rest := p.2.drop intDs.length
  let fracDs : List Char :=
    match rest with
    | '.' :: r => r.takeWhile (·.isDigit)
    | _ => []
  if intDs.isEmpty && fracDs.isEmpty then none
  else some (p.1 * ((decDigitsVal intDs : ℚ) +
    (decDigitsVal fracDs : ℚ) / (10 ^ fracDs.length)))

/-- JS `x.toFixed(1)` on a nonnegative number, read back as a rational:
round to the nearest tenth, ties upward (away from zero for the
nonnegative values BMI takes). -/
def toFixed1 (x : ℚ) : ℚ := (⌊10 * x + 1/2⌋ : ℚ) / 10

/-- JS `detail || fallback` on an optional string: `||` tests
truthiness, and both an absent (`undefined`) and an empty detail
string are falsy, so either yields the fallback. -/
def jsOrElse (detail : Option String) (fallback : String) : String :=
  match detail with
  | some s => if s = "" then fallback else s
  | none => fallback

/-! ## Daily log screen (`daily-log.tsx`) -/

/-- The form state of `DailyLogScreen`: one field per `useState` hook
(the `loading` flag is not part of the form). -/
structure DailyLogForm where
  breakfastFood : String
  breakfastPortion : String
  breakfastTime : String
  lunchFood : String
  lunchPortion : String
  lunchVegetables : Bool
  lunchProtein : Bool
  lunchFried : Bool
  lunchDessert : Bool
  dinnerFood : String
  dinnerPortion : String
  dinnerTime : String
  dinnerAfter9 : Bool
  hadSnacks : Bool
  snacksDetail : String
  beverages : String
  waterIntake : String
deriving DecidableEq, Repr

/-- The `useState` initial values of the daily-log form. -/
def initialDailyLogForm : DailyLogForm :=
  { breakfastFood := "", breakfastPortion := "Medium", breakfastTime := ""
    lunchFood := "", lunchPortion := "Medium", lunchVegetables := false
    lunchProtein := false, lunchFried := false, lunchDessert := false
    dinnerFood := "", dinnerPortion := "Medium", dinnerTime := ""
    dinnerAfter9 := false, hadSnacks := false, snacksDetail := ""
    beverages := "None", waterIntake := "1-2 L" }

/-- The setter calls in the success-alert `onPress` callback of
`handleSubmit` (the block under the `Reset form` comment): exactly the
six text fields and six booleans are reset; the portion, beverages and
water selectors are not touched. -/
def resetDailyLogForm (f : DailyLogForm) : DailyLogForm :=
  { f with breakfastFood := "", lunchFood := "", dinnerFood := ""
           breakfastTime := "", dinnerTime := "", snacksDetail := ""
           hadSnacks := false, lunchVegetables := false
           lunchProtein := false, lunchFried := false
           lunchDessert := false, dinnerAfter9 := false }

/-- The `logData` body posted to `/api/daily-logs`, flattened. -/
structure LogData where
  user_id : String
  log_date : String
  breakfast_food : String
  breakfast_portion : String
  breakfast_time : String
  lunch_food : String
  lunch_portion : String
  lunch_vegetables : Bool
  lunch_protein : Bool
  lunch_fried : Bool
  lunch_dessert : Bool
  dinner_food : String
  dinner_portion : String
  dinner_time : String
  dinner_after_9pm : Bool
  snacks_had_snacks : Bool
  snacks_details : String
  snacks_beverages : String
  water_intake : String
deriving DecidableEq, Repr

/-- Assembly of `logData` from the form state in `handleSubmit`. -/
def buildLogData (f : DailyLogForm) (userId today : String) : LogData :=
  { user_id := userId, log_date := today
    breakfast_food := f.breakfastFood, breakfast_portion := f.breakfastPortion
    breakfast_time := f.breakfastTime
    lunch_food := f.lunchFood, lunch_portion := f.lunchPortion
    lunch_vegetables := f.lunchVegetables, lunch_protein := f.lunchProtein
    lunch_fried := f.lunchFried, lunch_dessert := f.lunchDessert
    dinner_food := f.dinnerFood, dinner_portion := f.dinnerPortion
    dinner_time := f.dinnerTime, dinner_after_9pm := f.dinnerAfter9
    snacks_had_snacks := f.hadSnacks, snacks_details := f.snacksDetail
    snacks_beverages := f.beverages, water_intake := f.waterIntake }

/-- Observable outcome of one run of the daily-log `handleSubmit`. -/
structure SubmitOutcome where
  request : Option LogData
  alertTitle : String
  alertMessage : String
  formAfterConfirm : DailyLogForm
deriving DecidableEq, Repr

/-- `handleSubmit` of `DailyLogScreen`.  `stored` is
`AsyncStorage.getItem` of the `user_id` key; `server` is the result of
the `axios.post` (`.error d`: rejected with optional `detail`).
`formAfterConfirm` is the form state once the user dismisses the
resulting alert (for the success alert, after its OK callback ran). -/
def dailyLogSubmit (f : DailyLogForm) (stored : Option String)
    (today : String) (server : Except (Option String) Unit) : SubmitOutcome :=
  if f.breakfastFood = "" ∨ f.lunchFood = "" ∨ f.dinnerFood = "" then
    { request := none, alertTitle := "Incomplete"
      alertMessage := "Please fill in all meal details", formAfterConfirm := f }
  else
    match stored with
    | none =>
      { request := none, alertTitle := "Error"
        alertMessage := "User not found. Please login again."
        formAfterConfirm := f }
    | some userId =>
      let data := buildLogData f userId today
      match server with
      | .ok _ =>
        { request := some data, alertTitle := "Success"
          alertMessage := "Daily log saved successfully!"
          formAfterConfirm := resetDailyLogForm f }
      | .error detail =>
        { request := some data, alertTitle := "Error"
          alertMessage := jsOrElse detail "Failed to save log"
          formAfterConfirm := f }

/-! ## Reports screen (the `ReportsScreen` source file) -/

/-- The component state of `ReportsScreen` touched by the modelled
handlers (the report list and busy flags are omitted). -/
structure ReportsState where
  userId : String
  hfApiKey : String
  showApiKeyInput : Bool
  selectedReportForAnalysis : Option String
  selectedFile : Option String
deriving DecidableEq, Repr

/-- The `useState` initial values of `ReportsScreen`. -/
def initialReportsState : ReportsState :=
  { userId := "", hfApiKey := "", showApiKeyInput := false
    selectedReportForAnalysis := none, selectedFile := none }

/-- `loadReports`: reads the `user_id` key; when present it is copied
into component state and a GET of `/api/health-reports/id` is issued
(the returned `Option String` is the id of that request); when absent
nothing happens — no request, no navigation. -/
def loadReports (stored : Option String) (st : ReportsState) :
    ReportsState × Option String :=
  match stored with
  | some id => ({ st with userId := id }, some id)
  | none => (st, none)

/-- The multipart body of `POST /api/health-reports/upload`. -/
structure UploadRequest where
  user_id : String
  fileName : String
deriving DecidableEq, Repr

/-- Observable outcome of one run of `uploadReport`. -/
structure UploadOutcome where
  request : Option UploadRequest
  alertTitle : String
  alertMessage : String
  selectedFileAfter : Option String
deriving DecidableEq, Repr

/-- `uploadReport` of `ReportsScreen`.  The only guard is on
`selectedFile`; the posted `user_id` field is whatever the `userId`
component state holds. -/
def uploadReport (st : ReportsState)
    (server : Except (Option String) Unit) : UploadOutcome :=
  match st.selectedFile with
  | none =>
    { request := none, alertTitle := "No File"
      alertMessage := "Please select a PDF file first"
      selectedFileAfter := none }
  | some f =>
    let req : UploadRequest := { user_id := st.userId, fileName := f }
    match server with
    | .ok _ =>
      { request := some req, alertTitle := "Success"
        alertMessage := "Report uploaded successfully!"
        selectedFileAfter := none }
    | .error detail =>
      { request := some req, alertTitle := "Error"
        alertMessage := jsOrElse detail "Failed to upload report"
        selectedFileAfter := some f }

/-- The JSON body of `POST /api/health-reports/analyze`. -/
structure AnalyzeRequest where
  report_id : String
  hf_api_key : String
deriving DecidableEq, Repr

/-- Observable outcome of one run of `analyzeReport`. -/
structure AnalyzeOutcome where
  request : Option AnalyzeRequest
  showApiKeyInput : Bool
  selectedReportForAnalysis : Option String
  alertMessage : Option String
deriving DecidableEq, Repr

/-- `analyzeReport` of `ReportsScreen`: with an empty in-memory key it
records the report and opens the key-entry prompt without any request;
otherwise it posts the report id together with the current key. -/
def analyzeReport (st : ReportsState) (reportId : String)
    (server : Except (Option String) Unit) : AnalyzeOutcome :=
  if st.hfApiKey = "" then
    { request := none, showApiKeyInput := true
      selectedReportForAnalysis := some reportId, alertMessage := none }
  else
    let req : AnalyzeRequest := { report_id := reportId, hf_api_key := st.hfApiKey }
    match server with
    | .ok _ =>
      { request := some req, showApiKeyInput := st.showApiKeyInput
        selectedReportForAnalysis := st.selectedReportForAnalysis
        alertMessage := some "Report analyzed successfully!" }
    | .error detail =>
      { request := some req, showApiKeyInput := st.showApiKeyInput
        selectedReportForAnalysis := st.selectedReportForAnalysis
        alertMessage := some (jsOrElse detail "Failed to analyze report") }

/-! ## Workout screen (`workout.tsx`, `WorkoutScreen`) -/

/-- The multipart body of `POST /api/workout-plans/generate`. -/
structure GenerateRequest where
  user_id : String
  hf_api_key : String
deriving DecidableEq, Repr

/-- Observable outcome of one run of `generateWorkoutPlan`. -/
structure GenerateOutcome where
  request : Option GenerateRequest
  showApiKeyInput : Bool
  alertTitle : Option String
  alertMessage : Option String
deriving DecidableEq, Repr

/-- `generateWorkoutPlan` of `WorkoutScreen`.  `hfApiKey` and `show0`
are the current component state, `stored` the `user_id` key. -/
def generateWorkoutPlan (hfApiKey : String) (show0 : Bool)
    (stored : Option String) (server : Except (Option String) Unit) :
    GenerateOutcome :=
  if hfApiKey = "" then
    { request := none, showApiKeyInput := true
      alertTitle := none, alertMessage := none }
  else
    match stored with
    | none =>
      { request := none, showApiKeyInput := show0
        alertTitle := some "Error", alertMessage := some "User not found" }
    | some userId =>
      let req : GenerateRequest := { user_id := userId, hf_api_key := hfApiKey }
      match server with
      | .ok _ =>
        { request := some req, showApiKeyInput := show0
          alertTitle := some "Success"
          alertMessage := some "New workout plan generated!" }
      | .error detail =>
        { request := some req, showApiKeyInput := show0
          alertTitle := some "Error"
          alertMessage := some (jsOrElse detail "Failed to generate plan") }

/-! ## Registration screen (`RegisterScreen` in `workout.tsx`) -/

/-- The text-field state of `RegisterScreen` (`gender` starts as
`"Male"`, everything else empty). -/
structure RegisterForm where
  name : String
  email : String
  age : String
  gender : String
  height : String
  weight : String
deriving DecidableEq, Repr

/-- The JSON body of `POST /api/users`.  `age` and `height` are JS
numbers where `none` models `NaN`; `weight` is `none` for the literal
`null` sent when the weight text is empty, and `some none` for the
`NaN` produced by `parseFloat` on a non-numeric non-empty text. -/
structure RegisterRequest where
  name : String
  email : String
  age : Option Int
  gender : String
  height : Option ℚ
  weight : Option (Option ℚ)
deriving DecidableEq, Repr

/-- The success payload of `POST /api/users` used by the handler. -/
structure RegisteredUser where
  user_id : String
  name : String
deriving DecidableEq, Repr

/-- Observable outcome of one run of `handleRegister`. -/
structure RegisterOutcome where
  request : Option RegisterRequest
  alertTitle : String
  alertMessage : String
  storedPairs : List (String × String)
  route : Option String
deriving DecidableEq, Repr

/-- `handleRegister` of `RegisterScreen`: the local guard only tests
the four required texts for emptiness; `parseInt` / `parseFloat` are
applied unconditionally to whatever text passed that guard. -/
def handleRegister (f : RegisterForm)
    (server : Except (Option String) RegisteredUser) : RegisterOutcome :=
  if f.name = "" ∨ f.email = "" ∨ f.age = "" ∨ f.height = "" then
    { request := none, alertTitle := "Error"
      alertMessage := "Please fill in all required fields"
      storedPairs := [], route := none }
  else
    let req : RegisterRequest :=
      { name := f.name, email := f.email, age := jsParseInt f.age
        gender := f.gender, height := jsParseFloat f.height
        weight := if f.weight = "" then none else some (jsParseFloat f.weight) }
    match server with
    | .ok u =>
      { request := some req, alertTitle := "Success"
        alertMessage := "Registration successful!"
        storedPairs := [("user_id", u.user_id), ("user_name", u.name)]
        route := some "/(tabs)/home" }
    | .error detail =>
      { request := some req, alertTitle := "Error"
        alertMessage := jsOrElse detail "Registration failed"
        storedPairs := [], route := none }

/-! ## Profile screen (`profile.tsx`) -/

/-- The user record fetched by `ProfileScreen`; `height` and `weight`
are `none` when the field is `null` / absent in the response. -/
structure UserRecord where
  name : String
  email : String
  age : ℚ
  gender : String
  height : Option ℚ
  weight : Option ℚ
deriving DecidableEq, Repr

/-- JS truthiness of an optional numeric field: `null` / absent and
`0` are falsy, every other number is truthy. -/
def truthyNum : Option ℚ → Bool
  | none => false
  | some x => x != 0

/-- The `bmi` expression of `ProfileScreen`:
`user.weight and user.height ? (user.weight / ((user.height / 100) ** 2)).toFixed(1) : null`,
a truthiness-guarded conditional. -/
def bmi (u : UserRecord) : Option ℚ :=
  match u.weight, u.height with
  | some w, some h =>
    if w != 0 && h != 0 then some (toFixed1 (w / (h / 100) ^ 2)) else none
  | _, _ => none

/-- The render guard of the weight row: `user.weight and (...)`. -/
def weightRowShown (u : UserRecord) : Bool := truthyNum u.weight

/-- The render guard of the BMI row: `bmi and (...)` — `bmi` is either
`null` or a non-empty `toFixed` string, so truthiness is `isSome`. -/
def bmiRowShown (u : UserRecord) : Bool := (bmi u).isSome

/-! ## Local key-value storage and logout (`profile.tsx`) -/

/-- The device-local key-value store (`AsyncStorage`) as a partial map
from keys to string values. -/
def Store := String → Option String

/-- `AsyncStorage.clear()`: every key is removed. -/
def asyncStorageClear (_ : Store) : Store := fun _ => none

/-- The confirmed-logout callback of `handleLogout` in
`ProfileScreen`: `AsyncStorage.clear()` then `router.replace` to the
entry route. -/
def handleLogoutConfirmed (st : Store) : Store × String :=
  (asyncStorageClear st, "/")

/-! ## Concrete fixtures used by witnesses and counterexamples -/

/-- A filled daily-log form whose selectors differ from the defaults. -/
def c1Form : DailyLogForm :=
  { initialDailyLogForm with
      breakfastFood := "idli", lunchFood := "rice", dinnerFood := "dosa"
      breakfastPortion := "Large", beverages := "2-3 cups"
      waterIntake := "More than 3 L" }

/-- A store holding the two persisted keys and one unrelated key. -/
def c2Store : Store := fun k =>
  if k = "user_id" then some "u1"
  else if k = "user_name" then some "Kata"
  else if k = "theme" then some "dark"
  else none

/-- Reports-screen state with a file picked but no identifier loaded. -/
def c3State : ReportsState :=
  { initialReportsState with selectedFile := some "lab.pdf" }

/-- A user record with both biometrics present and nonzero. -/
def c5UserPresent70 : UserRecord :=
  { name := "Asha", email := "asha@example.com", age := 30
    gender := "Female", height := some 170, weight := some 70 }

/-- A user record with weight present but equal to zero. -/
def c5UserZeroWeight : UserRecord :=
  { name := "Asha", email := "asha@example.com", age := 30
    gender := "Female", height := some 170, weight := some 0 }

/-- Registration form with the required name left empty. -/
def c6EmptyName : RegisterForm :=
  { name := "", email := "a@example.com", age := "30"
    gender := "Male", height := "170", weight := "" }

/-- Registration form with every required field filled and both
optional fields empty. -/
def c6Full : RegisterForm :=
  { name := "Asha", email := "a@example.com", age := "30"
    gender := "", height := "170", weight := "" }

/-- A server success payload for registration. -/
def c6User : RegisteredUser := { user_id := "u1", name := "Asha" }

/-- Daily-log form with the three meal texts filled. -/
def c8Form : DailyLogForm :=
  { initialDailyLogForm with
      breakfastFood := "idli", lunchFood := "rice", dinnerFood := "dosa" }

/-- Reports-screen state with a file picked. -/
def c8State : ReportsState :=
  { initialReportsState with selectedFile := some "report.pdf" }

/-- Registration form whose age and height texts are non-empty but not
numeric. -/
def c9Form : RegisterForm :=
  { name := "Asha", email := "a@example.com", age := "abc"
    gender := "Male", height := "xyz", weight := "" }

/-- A server success payload for registration. -/
def c9User : RegisteredUser := { user_id := "u2", name := "Asha" }

/-- A user record with weight present but equal to zero. -/
def c10User : UserRecord :=
  { name := "Ravi", email := "ravi@example.com", age := 40
    gender := "Male", height := some 180, weight := some 0 }

/-! ## Claim C1 — daily-log reset after success -/

/-- C1 counterexample: after a successful submission of `c1Form` and
the user's confirmation, the breakfast-portion selector is still
`"Large"`, the beverages selector still `"2-3 cups"` and the
water-intake selector still `"More than 3 L"` — none of them returned
to its documented default, although the POST was issued and resolved. -/
theorem daily_log_reset_not_all_defaults :
    (dailyLogSubmit c1Form (some "u1") "2026-02-03" (Except.ok ())).request.isSome = true ∧
    (dailyLogSubmit c1Form (some "u1") "2026-02-03" (Except.ok ())).formAfterConfirm.breakfastPortion ≠ "Medium" ∧
    (dailyLogSubmit c1Form (some "u1") "2026-02-03" (Except.ok ())).formAfterConfirm.beverages ≠ "None" ∧
    (dailyLogSubmit c1Form (some "u1") "2026-02-03" (Except.ok ())).formAfterConfirm.waterIntake ≠ "1-2 L" := by
  decide

/-- C1 (amended): after every successful daily-log submission that the
user confirms, the six free-text fields become empty strings and the
six boolean toggles become `false`, while the three portion selectors,
the beverages selector and the water-intake selector keep the values
they had before the submission (they are not reset to `"Medium"`,
`"None"`, `"1-2 L"`). -/
theorem daily_log_success_reset (f : DailyLogForm) (uid today : String)
    (hb : f.breakfastFood ≠ "") (hl : f.lunchFood ≠ "") (hd : f.dinnerFood ≠ "") :
    (dailyLogSubmit f (some uid) today (Except.ok ())).request = some (buildLogData f uid today) ∧
    (dailyLogSubmit f (some uid) today (Except.ok ())).formAfterConfirm =
      { f with breakfastFood := "", lunchFood := "", dinnerFood := ""
               breakfastTime := "", dinnerTime := "", snacksDetail := ""
               hadSnacks := false, lunchVegetables := false
               lunchProtein := false, lunchFried := false
               lunchDessert := false, dinnerAfter9 := false } := by
  unfold dailyLogSubmit
  rw [if_neg (by simp [hb, hl, hd])]
  exact ⟨rfl, rfl⟩

/-- C1 witness: the amended theorem applied to the concrete form
`c1Form` and a resolving POST. -/
theorem daily_log_success_reset_witness :
    c1Form.breakfastFood ≠ "" ∧ c1Form.lunchFood ≠ "" ∧ c1Form.dinnerFood ≠ "" ∧
    ((dailyLogSubmit c1Form (some "u1") "2026-02-03" (Except.ok ())).request =
        some (buildLogData c1Form "u1" "2026-02-03") ∧
      (dailyLogSubmit c1Form (some "u1") "2026-02-03" (Except.ok ())).formAfterConfirm =
        { c1Form with breakfastFood := "", lunchFood := "", dinnerFood := ""
                      breakfastTime := "", dinnerTime := "", snacksDetail := ""
                      hadSnacks := false, lunchVegetables := false
                      lunchProtein := false, lunchFried := false
                      lunchDessert := false, dinnerAfter9 := false }) :=
  ⟨by decide, by decide, by decide,
    daily_log_success_reset c1Form "u1" "2026-02-03" (by decide) (by decide) (by decide)⟩

/-! ## Claim C7 — incomplete daily log blocks the request -/

/-- C7: whenever one of the three meal free-text fields is empty,
`handleSubmit` issues no request, raises the `Incomplete` dialog, and
leaves the whole form state unchanged. -/
theorem daily_log_incomplete_no_request (f : DailyLogForm)
    (stored : Option String) (today : String)
    (server : Except (Option String) Unit)
    (h : f.breakfastFood = "" ∨ f.lunchFood = "" ∨ f.dinnerFood = "") :
    (dailyLogSubmit f stored today server).request = none ∧
    (dailyLogSubmit f stored today server).alertTitle = "Incomplete" ∧
    (dailyLogSubmit f stored today server).formAfterConfirm = f := by
  unfold dailyLogSubmit
  rw [if_pos h]
  exact ⟨rfl, rfl, rfl⟩

/-- C7 witness: the theorem applied to the initial (all-empty) form. -/
theorem daily_log_incomplete_no_request_witness :
    (initialDailyLogForm.breakfastFood = "" ∨ initialDailyLogForm.lunchFood = "" ∨
      initialDailyLogForm.dinnerFood = "") ∧
    ((dailyLogSubmit initialDailyLogForm (some "u1") "2026-02-03" (Except.ok ())).request = none ∧
      (dailyLogSubmit initialDailyLogForm (some "u1") "2026-02-03" (Except.ok ())).alertTitle = "Incomplete" ∧
      (dailyLogSubmit initialDailyLogForm (some "u1") "2026-02-03" (Except.ok ())).formAfterConfirm =
        initialDailyLogForm) :=
  ⟨Or.inl rfl,
    daily_log_incomplete_no_request initialDailyLogForm (some "u1") "2026-02-03"
      (Except.ok ()) (Or.inl rfl)⟩

/-! ## Claim C8 — failure messages: server detail or fixed fallback -/

/-- C8 counterexample: a failure response that does carry a `detail`
field, but an empty one, does not surface that detail string — JS `||`
treats the empty string as falsy — so both handlers show the fixed
fallback instead of the carried `""`. -/
theorem failure_empty_detail_surfaces_fallback :
    (dailyLogSubmit c8Form (some "u1") "2026-02-03"
        (Except.error (some ""))).alertMessage ≠ "" ∧
    (dailyLogSubmit c8Form (some "u1") "2026-02-03"
        (Except.error (some ""))).alertMessage = "Failed to save log" ∧
    (uploadReport c8State (Except.error (some ""))).alertMessage ≠ "" ∧
    (uploadReport c8State (Except.error (some ""))).alertMessage =
      "Failed to upload report" := by
  decide

/-- C8 (amended): on a failed request the surfaced message is the
response's `detail` string when one is present and non-empty; when the
detail is absent, empty, or there is no response at all, it is the
action's fixed fallback string (`Failed to save log` for the daily-log
submit, `Failed to upload report` for the report upload) — a total
string, never an undefined value. -/
theorem failure_message_detail_or_fallback (f : DailyLogForm)
    (uid today : String) (detail : Option String)
    (st : ReportsState) (file : String)
    (hb : f.breakfastFood ≠ "") (hl : f.lunchFood ≠ "") (hd : f.dinnerFood ≠ "")
    (hf : st.selectedFile = some file) :
    (∀ d, detail = some d → d ≠ "" →
      (dailyLogSubmit f (some uid) today (Except.error detail)).alertMessage = d ∧
      (uploadReport st (Except.error detail)).alertMessage = d) ∧
    (detail = none ∨ detail = some "" →
      (dailyLogSubmit f (some uid) today (Except.error detail)).alertMessage =
        "Failed to save log" ∧
      (uploadReport st (Except.error detail)).alertMessage =
        "Failed to upload report") := by
  have hdl : (dailyLogSubmit f (some uid) today (Except.error detail)).alertMessage =
      jsOrElse detail "Failed to save log" := by
    unfold dailyLogSubmit
    rw [if_neg (by simp [hb, hl, hd])]
  have hup : (uploadReport st (Except.error detail)).alertMessage =
      jsOrElse detail "Failed to upload report" := by
    simp [uploadReport, hf]
  constructor
  · rintro d rfl hne
    rw [hdl, hup]
    simp [jsOrElse, hne]
  · rintro (rfl | rfl) <;> rw [hdl, hup] <;> simp [jsOrElse]

/-- C8 witness: a non-empty detail string is surfaced verbatim, and a
response with no detail surfaces the two fixed fallback strings. -/
theorem failure_message_detail_or_fallback_witness :
    c8Form.breakfastFood ≠ "" ∧ c8Form.lunchFood ≠ "" ∧ c8Form.dinnerFood ≠ "" ∧
    c8State.selectedFile = some "report.pdf" ∧
    (dailyLogSubmit c8Form (some "u1") "2026-02-03"
        (Except.error (some "Invalid log"))).alertMessage = "Invalid log" ∧
    (uploadReport c8State (Except.error (some "Invalid log"))).alertMessage =
      "Invalid log" ∧
    (dailyLogSubmit c8Form (some "u1") "2026-02-03"
        (Except.error none)).alertMessage = "Failed to save log" ∧
    (uploadReport c8State (Except.error none)).alertMessage =
      "Failed to upload report" :=
  have h1 := failure_message_detail_or_fallback c8Form "u1" "2026-02-03"
    (some "Invalid log") c8State "report.pdf" (by decide) (by decide) (by decide) rfl
  have h2 := failure_message_detail_or_fallback c8Form "u1" "2026-02-03"
    none c8State "report.pdf" (by decide) (by decide) (by decide) rfl
  have hd := h1.1 "Invalid log" rfl (by decide)
  have hn := h2.2 (Or.inl rfl)
  ⟨by decide, by decide, by decide, rfl, hd.1, hd.2, hn.1, hn.2⟩

/-! ## Claim C2 — logout and local storage -/

/-- C2 counterexample: the logout handler calls `AsyncStorage.clear()`,
so a stored key unrelated to the two persisted ones (`"theme"` here)
does not survive logout, refuting `leaving any other stored key
unchanged` at an explicit store. -/
theorem logout_clears_unrelated_key :
    c2Store "theme" = some "dark" ∧
    "theme" ≠ "user_id" ∧ "theme" ≠ "user_name" ∧
    (handleLogoutConfirmed c2Store).1 "theme" ≠ c2Store "theme" := by
  refine ⟨rfl, by decide, by decide, ?_⟩
  simp [handleLogoutConfirmed, asyncStorageClear, c2Store]

/-- C2 (amended): every confirmed logout clears the entire local
key-value store — in particular both persisted keys `user_id` and
`user_name`, but every other stored key as well — and then navigates to
the registration entry route. -/
theorem logout_clears_all_keys (st : Store) (k : String) :
    (handleLogoutConfirmed st).1 "user_id" = none ∧
    (handleLogoutConfirmed st).1 "user_name" = none ∧
    (handleLogoutConfirmed st).1 k = none ∧
    (handleLogoutConfirmed st).2 = "/" :=
  ⟨rfl, rfl, rfl, rfl⟩

/-! ## Claim C3 — missing identifier and backend requests -/

/-- C3 counterexample: with no `user_id` key in storage, `loadReports`
issues no request and leaves the component's `userId` state at `""`,
but `uploadReport` — whose only guard is file selection — still posts
to the upload endpoint with an empty `user_id` field, and nothing
navigates the user back to registration. -/
theorem upload_sends_empty_user_id :
    (loadReports none c3State).2 = none ∧
    (loadReports none c3State).1.userId = "" ∧
    (uploadReport (loadReports none c3State).1 (Except.ok ())).request =
      some { user_id := "", fileName := "lab.pdf" } := by
  exact ⟨rfl, rfl, rfl⟩

/-- C3 (amended): without a cached identifier the report fetch issues
no request (and does nothing else) and the daily-log submission issues
no request; the report upload, however, only checks that a file is
selected and always posts whatever `user_id` string sits in component
state — the empty string when the identifier was never loaded. -/
theorem missing_identifier_request_gating (st : ReportsState)
    (resp : Except (Option String) Unit) (f : DailyLogForm)
    (today : String) (server : Except (Option String) Unit)
    (fileName : String)
    (hb : f.breakfastFood ≠ "") (hl : f.lunchFood ≠ "") (hd : f.dinnerFood ≠ "") :
    (loadReports none st).2 = none ∧
    (loadReports none st).1 = st ∧
    (dailyLogSubmit f none today server).request = none ∧
    (st.selectedFile = none → (uploadReport st resp).request = none) ∧
    (st.selectedFile = some fileName →
      (uploadReport st resp).request =
        some { user_id := st.userId, fileName := fileName }) := by
  refine ⟨rfl, rfl, ?_, ?_, ?_⟩
  · unfold dailyLogSubmit
    rw [if_neg (by simp [hb, hl, hd])]
  · intro h
    simp [uploadReport, h]
  · intro h
    cases resp <;> simp [uploadReport, h]

/-- C3 witness: the amended theorem applied to the states of the
counterexample. -/
theorem missing_identifier_request_gating_witness :
    c3State.selectedFile = some "lab.pdf" ∧
    (loadReports none c3State).2 = none ∧
    (dailyLogSubmit c8Form none "2026-02-03" (Except.ok ())).request = none ∧
    (uploadReport c3State (Except.ok ())).request =
      some { user_id := c3State.userId, fileName := "lab.pdf" } :=
  have h := missing_identifier_request_gating c3State (Except.ok ()) c8Form
    "2026-02-03" (Except.ok ()) "lab.pdf" (by decide) (by decide) (by decide)
  ⟨rfl, h.1, h.2.2.1, h.2.2.2.2 rfl⟩

/-! ## Claim C4 — credential gate on the AI endpoints -/

/-- C4: neither `analyzeReport` nor `generateWorkoutPlan` ever sends a
request while the in-memory credential is empty — an empty credential
opens the key-entry prompt instead — and any request either handler
does send carries the current, non-empty credential. -/
theorem credential_gate (st : ReportsState) (rid : String)
    (resp : Except (Option String) Unit) (key : String) (show0 : Bool)
    (stored : Option String) (resp2 : Except (Option String) Unit) :
    (st.hfApiKey = "" →
      (analyzeReport st rid resp).request = none ∧
      (analyzeReport st rid resp).showApiKeyInput = true) ∧
    (∀ r, (analyzeReport st rid resp).request = some r →
      r.hf_api_key = st.hfApiKey ∧ r.hf_api_key ≠ "") ∧
    (key = "" →
      (generateWorkoutPlan key show0 stored resp2).request = none ∧
      (generateWorkoutPlan key show0 stored resp2).showApiKeyInput = true) ∧
    (∀ r, (generateWorkoutPlan key show0 stored resp2).request = some r →
      r.hf_api_key = key ∧ r.hf_api_key ≠ "") := by
  refine ⟨?_, ?_, ?_, ?_⟩
  · intro h
    simp [analyzeReport, h]
  · intro r hr
    by_cases h : st.hfApiKey = ""
    · simp [analyzeReport, h] at hr
    · cases resp <;> simp [analyzeReport, h] at hr <;> simp [← hr, h]
  · intro h
    simp [generateWorkoutPlan, h]
  · intro r hr
    by_cases h : key = ""
    · simp [generateWorkoutPlan, h] at hr
    · cases stored with
      | none => simp [generateWorkoutPlan, h] at hr
      | some uid => cases resp2 <;> simp [generateWorkoutPlan, h] at hr <;> simp [← hr, h]

/-- C4 witness: with an empty credential, the first analyze trigger and
the first generate trigger open the prompt and send nothing. -/
theorem credential_gate_witness :
    (analyzeReport initialReportsState "r1" (Except.ok ())).request = none ∧
    (analyzeReport initialReportsState "r1" (Except.ok ())).showApiKeyInput = true ∧
    (generateWorkoutPlan "" false (some "u1") (Except.ok ())).request = none ∧
    (generateWorkoutPlan "" false (some "u1") (Except.ok ())).showApiKeyInput = true :=
  have h := credential_gate initialReportsState "r1" (Except.ok ()) "" false
    (some "u1") (Except.ok ())
  ⟨(h.1 rfl).1, (h.1 rfl).2, (h.2.2.1 rfl).1, (h.2.2.1 rfl).2⟩

/-! ## Claim C5 — BMI computation -/

/-- C5 counterexample: a record in which both weight and height are
present (weight zero) displays no BMI at all, because the guard is
truthiness rather than presence, so `presence of both fields` does not
suffice for the formula value to be displayed. -/
theorem bmi_present_claim_fails_at_zero_weight :
    c5UserZeroWeight.weight = some 0 ∧ c5UserZeroWeight.height = some 170 ∧
    bmi c5UserZeroWeight = none ∧
    bmi c5UserZeroWeight ≠ some (toFixed1 ((0 : ℚ) / ((170 : ℚ) / 100) ^ 2)) := by
  refine ⟨rfl, rfl, ?_, ?_⟩ <;> simp [bmi, c5UserZeroWeight]

/-- C5 (amended): whenever both weight and height are present and
nonzero (truthy), the displayed BMI equals weight divided by
(height/100) squared rounded to one decimal place; whenever either
field is absent, no BMI is computed or displayed. -/
theorem bmi_truthy_formula (u : UserRecord) (w hgt : ℚ)
    (hw : u.weight = some w) (hh : u.height = some hgt)
    (hw0 : w ≠ 0) (hh0 : hgt ≠ 0) :
    bmi u = some (toFixed1 (w / (hgt / 100) ^ 2)) ∧
    ∀ v : UserRecord, v.weight = none ∨ v.height = none → bmi v = none := by
  constructor
  · simp [bmi, hw, hh, hw0, hh0]
  · rintro v (hv | hv)
    · cases hh2 : v.height <;> simp [bmi, hv, hh2]
    · cases hw2 : v.weight <;> simp [bmi, hv, hw2]

/-- C5 witness: for height 170 cm and weight 70 kg the displayed BMI is
24.2 (`121/5`). -/
theorem bmi_truthy_formula_witness :
    c5UserPresent70.weight = some 70 ∧ c5UserPresent70.height = some 170 ∧
    bmi c5UserPresent70 = some (toFixed1 ((70 : ℚ) / ((170 : ℚ) / 100) ^ 2)) ∧
    toFixed1 ((70 : ℚ) / ((170 : ℚ) / 100) ^ 2) = 121 / 5 :=
  have h := bmi_truthy_formula c5UserPresent70 70 170 rfl rfl
    (by norm_num) (by norm_num)
  ⟨rfl, rfl, h.1, by norm_num [toFixed1]⟩

/-! ## Claim C6 — registration required-field guard -/

/-- C6: a registration submission with any of name, email, age or
height empty issues no network call and raises the error dialog, while
empty weight or gender never blocks the submission — once the four
required texts are non-empty the request is issued. -/
theorem register_required_guard (f : RegisterForm)
    (server : Except (Option String) RegisteredUser) :
    ((f.name = "" ∨ f.email = "" ∨ f.age = "" ∨ f.height = "") →
      (handleRegister f server).request = none ∧
      (handleRegister f server).alertTitle = "Error") ∧
    (f.name ≠ "" → f.email ≠ "" → f.age ≠ "" → f.height ≠ "" →
      (handleRegister f server).request.isSome = true) := by
  constructor
  · intro h
    unfold handleRegister
    rw [if_pos h]
    exact ⟨rfl, rfl⟩
  · intro hn he ha hh
    unfold handleRegister
    rw [if_neg (by simp [hn, he, ha, hh])]
    cases server <;> rfl

/-- C6 witness: an empty name blocks the request; a form with all
required fields filled and empty gender and weight sends it. -/
theorem register_required_guard_witness :
    c6EmptyName.name = "" ∧
    (handleRegister c6EmptyName (Except.ok c6User)).request = none ∧
    (handleRegister c6EmptyName (Except.ok c6User)).alertTitle = "Error" ∧
    c6Full.gender = "" ∧ c6Full.weight = "" ∧
    (handleRegister c6Full (Except.ok c6User)).request.isSome = true :=
  have h1 := (register_required_guard c6EmptyName (Except.ok c6User)).1 (Or.inl rfl)
  have h2 := (register_required_guard c6Full (Except.ok c6User)).2
    (by decide) (by decide) (by decide) (by decide)
  ⟨rfl, h1.1, h1.2, rfl, rfl, h2⟩

/-! ## Claim C9 — unparseable numeric fields pass validation as NaN -/

/-- C9: when the four required texts are non-empty, local validation
passes and the posted body carries exactly `parseInt(age)` and
`parseFloat(height)` — hence `NaN` (modelled `none`) whenever the text
is non-empty but not numeric; no numeric validation intervenes. -/
theorem register_nonnumeric_sends_nan (f : RegisterForm)
    (server : Except (Option String) RegisteredUser)
    (hn : f.name ≠ "") (he : f.email ≠ "") (ha : f.age ≠ "") (hh : f.height ≠ "") :
    ∃ r, (handleRegister f server).request = some r ∧
      r.age = jsParseInt f.age ∧ r.height = jsParseFloat f.height := by
  unfold handleRegister
  rw [if_neg (by simp [hn, he, ha, hh])]
  cases server <;> exact ⟨_, rfl, rfl, rfl⟩

/-- C9 witness: age text `"abc"` and height text `"xyz"` pass the
emptiness guard and the issued request carries `NaN` for both. -/
theorem register_nonnumeric_sends_nan_witness :
    c9Form.age = "abc" ∧ jsParseInt "abc" = none ∧ jsParseFloat "xyz" = none ∧
    ∃ r, (handleRegister c9Form (Except.ok c9User)).request = some r ∧
      r.age = none ∧ r.height = none :=
  have h := register_nonnumeric_sends_nan c9Form (Except.ok c9User)
    (by decide) (by decide) (by decide) (by decide)
  have ⟨r, h1, h2, h3⟩ := h
  ⟨rfl, by decide, by decide, r, h1,
    h2.trans (by decide), h3.trans (by decide)⟩

/-! ## Claim C10 — BMI guard is truthiness, division never reached -/

/-- C10: the BMI conditional is guarded by truthiness of both fields:
whenever weight or height is absent or zero, the division branch is not
taken (`bmi` is `null`) and the BMI row is not rendered; any displayed
BMI implies both fields were truthy; and a record with weight zero
hides its weight row as well. -/
theorem bmi_guard_truthiness (u : UserRecord) :
    ((u.weight = none ∨ u.weight = some 0 ∨ u.height = none ∨ u.height = some 0) →
      bmi u = none ∧ bmiRowShown u = false) ∧
    (u.weight = some 0 → weightRowShown u = false) ∧
    (∀ q : ℚ, bmi u = some q →
      truthyNum u.weight = true ∧ truthyNum u.height = true) := by
  refine ⟨?_, ?_, ?_⟩
  · rintro (hv | hv | hv | hv)
    · cases hh2 : u.height <;> simp [bmi, bmiRowShown, hv, hh2]
    · cases hh2 : u.height <;> simp [bmi, bmiRowShown, hv, hh2]
    · cases hw2 : u.weight <;> simp [bmi, bmiRowShown, hv, hw2]
    · cases hw2 : u.weight <;> simp [bmi, bmiRowShown, hv, hw2]
  · intro hv
    simp [weightRowShown, truthyNum, hv]
  · intro q hq
    cases hw2 : u.weight with
    | none => simp [bmi, hw2] at hq
    | some w =>
      cases hh2 : u.height with
      | none => simp [bmi, hw2, hh2] at hq
      | some hgt =>
        by_cases h0 : w ≠ 0 ∧ hgt ≠ 0
        · simp [truthyNum, h0.1, h0.2]
        · rw [Classical.not_and_iff_or_not_not] at h0
          rcases h0 with h0 | h0 <;> simp [bmi, hw2, hh2, not_not.mp h0] at hq

/-- C10 witness: the record with weight zero shows neither a BMI row
nor a weight row. -/
theorem bmi_guard_truthiness_witness :
    c10User.weight = some 0 ∧ bmi c10User = none ∧
    bmiRowShown c10User = false ∧ weightRowShown c10User = false :=
  have h := bmi_guard_truthiness c10User
  have h1 := h.1 (Or.inr (Or.inl rfl))
  ⟨rfl, h1.1, h1.2, h.2.1 rfl⟩

end HealthCoach
